import Mathlib

/-!
Verification development for the license-server user app (`src/app.py`).

The app is a Flask service with a single decision endpoint `POST /api/authorize`
(function `authorize`, lines 84-169) plus a token helper
(`generate_session_token`, lines 50-57).  We embed the decision logic shallowly:

* the relational store (tables `active_sessions`, `licenses`, `file_registry`)
  becomes association lists in iteration order (`fetchone` on a keyed SELECT is
  the first matching row, `LIMIT 1` without ORDER BY is the first row);
* timestamps (`datetime`) become rationals counting seconds since the epoch;
  Python float arithmetic on hours is modelled by exact rational arithmetic;
* each call of `datetime.now()` consumes the next value of an ambient clock
  sequence `clock : Nat -> Rat`, indexed in program order, so that the number
  and order of clock reads of the source is preserved;
* the Google identity verifier (`verify_google_token`, an external network
  collaborator) is an injected function `verify : token -> token_type ->
  Except error email`, mirroring its `(email, error)` result convention;
* `hmac.new(secret, msg, sha256).hexdigest()` is embedded by a full
  implementation of SHA-256 and HMAC over byte lists, and
  `datetime.isoformat()` by Gregorian civil-from-days rendering.
-/

/-! ## SHA-256 over byte lists (embedding of `hashlib.sha256`) -/

namespace Sha256

def M32 : Nat := 4294967296

def rotr32 (n x : Nat) : Nat := ((x >>> n) ||| (x <<< (32 - n))) % M32

def ssig0 (x : Nat) : Nat := (rotr32 7 x) ^^^ (rotr32 18 x) ^^^ (x >>> 3)

def ssig1 (x : Nat) : Nat := (rotr32 17 x) ^^^ (rotr32 19 x) ^^^ (x >>> 10)

def bsig0 (x : Nat) : Nat := (rotr32 2 x) ^^^ (rotr32 13 x) ^^^ (rotr32 22 x)

def bsig1 (x : Nat) : Nat := (rotr32 6 x) ^^^ (rotr32 11 x) ^^^ (rotr32 25 x)

def chFn (x y z : Nat) : Nat := (x &&& y) ^^^ ((x ^^^ 4294967295) &&& z)

def majFn (x y z : Nat) : Nat := (x &&& y) ^^^ (x &&& z) ^^^ (y &&& z)

def K256 : List Nat :=
  [1116352408, 1899447441, 3049323471, 3921009573, 961987163,
   1508970993, 2453635748, 2870763221, 3624381080, 310598401,
   607225278, 1426881987, 1925078388, 2162078206, 2614888103,
   3248222580, 3835390401, 4022224774, 264347078, 604807628,
   770255983, 1249150122, 1555081692, 1996064986, 2554220882,
   2821834349, 2952996808, 3210313671, 3336571891, 3584528711,
   113926993, 338241895, 666307205, 773529912, 1294757372,
   1396182291, 1695183700, 1986661051, 2177026350, 2456956037,
   2730485921, 2820302411, 3259730800, 3345764771, 3516065817,
   3600352804, 4094571909, 275423344, 430227734, 506948616,
   659060556, 883997877, 958139571, 1322822218, 1537002063,
   1747873779, 1955562222, 2024104815, 2227730452, 2361852424,
   2428436474, 2756734187, 3204031479, 3329325298]

def H256 : List Nat :=
  [1779033703, 3144134277, 1013904242, 2773480762, 1359893119,
   2600822924, 528734635, 1541459225]

/-- Big-endian rendering of `v` on `n` bytes. -/
def beBytes : Nat → Nat → List Nat
  | 0, _ => []
  | n + 1, v => beBytes n (v / 256) ++ [v % 256]

/-- Group bytes into big-endian 32-bit words. -/
def wordsOfBytes (l : List Nat) : List Nat :=
  (l.toChunks 4).map (fun c => c.foldl (fun acc b => acc * 256 + b) 0)

/-- Extend the 16-word block schedule by `n` further words. -/
def extendW : Nat → List Nat → List Nat
  | 0, w => w
  | n + 1, w =>
    let i := w.length
    let a := w.getD (i - 2) 0
    let b := w.getD (i - 7) 0
    let c := w.getD (i - 15) 0
    let d := w.getD (i - 16) 0
    extendW n (w ++ [(ssig1 a + b + ssig0 c + d) % M32])

def sha256Round (st : List Nat) (kw : Nat × Nat) : List Nat :=
  match st with
  | [a, b, c, d, e, f, g, h] =>
    let t1 := (h + bsig1 e + chFn e f g + kw.1 + kw.2) % M32
    let t2 := (bsig0 a + majFn a b c) % M32
    [(t1 + t2) % M32, a, b, c, (d + t1) % M32, e, f, g]
  | other => other

def compressBlock (h : List Nat) (block : List Nat) : List Nat :=
  let w := extendW 48 (wordsOfBytes block)
  let fin := (K256.zip w).foldl sha256Round h
  (h.zip fin).map (fun p => (p.1 + p.2) % M32)

/-- SHA-256 of a byte list, as a 32-byte list. -/
def sha256 (msg : List Nat) : List Nat :=
  let padZeros := (119 - msg.length % 64) % 64
  let padded := msg ++ [0x80] ++ List.replicate padZeros 0 ++ beBytes 8 (msg.length * 8)
  let hfin := (padded.toChunks 64).foldl compressBlock H256
  (hfin.map (beBytes 4)).flatten

end Sha256

/-! ## HMAC, UTF-8 and hex digests (embedding of `hmac.new(...).hexdigest()`) -/

/-- HMAC-SHA256 (RFC 2104) over byte lists, block size 64. -/
def hmacSha256 (key msg : List Nat) : List Nat :=
  let k0 := if key.length > 64 then Sha256.sha256 key else key
  let kp := k0 ++ List.replicate (64 - k0.length) 0
  let ipad := kp.map (fun b => b ^^^ 0x36)
  let opad := kp.map (fun b => b ^^^ 0x5c)
  Sha256.sha256 (opad ++ Sha256.sha256 (ipad ++ msg))

/-- UTF-8 encoding of one character (embedding of Python `str.encode()`). -/
def utf8EncodeChar (c : Char) : List Nat :=
  let n := c.toNat
  if n < 0x80 then [n]
  else if n < 0x800 then [0xC0 ||| (n >>> 6), 0x80 ||| (n &&& 0x3F)]
  else if n < 0x10000 then
    [0xE0 ||| (n >>> 12), 0x80 ||| ((n >>> 6) &&& 0x3F), 0x80 ||| (n &&& 0x3F)]
  else
    [0xF0 ||| (n >>> 18), 0x80 ||| ((n >>> 12) &&& 0x3F),
     0x80 ||| ((n >>> 6) &&& 0x3F), 0x80 ||| (n &&& 0x3F)]

def utf8Bytes (s : String) : List Nat := (s.data.map utf8EncodeChar).flatten

def hexChar (n : Nat) : Char := Char.ofNat (if n < 10 then 48 + n else 87 + n)

/-- Lowercase hex string of a byte list (embedding of `.hexdigest()`). -/
def bytesToHex (l : List Nat) : String :=
  String.mk ((l.map (fun b => [hexChar (b / 16), hexChar (b % 16)])).flatten)

/-- Decidable check that every character of `s` is a lowercase hex digit. -/
def isHexString (s : String) : Bool :=
  s.data.all (fun c => ("0123456789abcdef".data).contains c)

/-- Hex digest of the HMAC-SHA256 of UTF-8 encoded strings: the embedding of
`hmac.new(SESSION_SECRET.encode(), message.encode(), hashlib.sha256).hexdigest()`
(src/app.py lines 54-56). -/
def hmacSha256Hex (secret msg : String) : String :=
  bytesToHex (hmacSha256 (utf8Bytes secret) (utf8Bytes msg))

/-! ## ISO-8601 rendering (embedding of `datetime.isoformat()`)

Timestamps are rationals counting seconds since 1970-01-01T00:00:00.
`civilFromDays` is the standard Gregorian days-to-civil conversion.
Python datetimes carry microseconds; a sub-microsecond rational remainder
(which Python's microsecond-rounded values never have) is truncated. -/

def pad2 (n : Nat) : String := if n < 10 then "0" ++ toString n else toString n

def pad4 (n : Nat) : String :=
  if n < 10 then "000" ++ toString n
  else if n < 100 then "00" ++ toString n
  else if n < 1000 then "0" ++ toString n
  else toString n

def pad6 (n : Nat) : String :=
  let s := toString n
  String.mk (List.replicate (6 - s.length) '0') ++ s

/-- Gregorian civil date `(year, month, day)` from days since 1970-01-01. -/
def civilFromDays (z0 : Int) : Int × Nat × Nat :=
  let z := z0 + 719468
  let era := z.ediv 146097
  let doe := (z.emod 146097).toNat
  let yoe := (doe - doe / 1460 + doe / 36524 - doe / 146096) / 365
  let y := (yoe : Int) + era * 400
  let doy := doe - (365 * yoe + yoe / 4 - yoe / 100)
  let mp := (5 * doy + 2) / 153
  let d := doy - (153 * mp + 2) / 5 + 1
  let m := if mp < 10 then mp + 3 else mp - 9
  (if m ≤ 2 then y + 1 else y, m, d)

def yearString (y : Int) : String :=
  if y < 0 then "-" ++ pad4 (-y).toNat else pad4 y.toNat

/-- ISO-8601 rendering of a timestamp, `YYYY-MM-DDTHH:MM:SS[.ffffff]`,
with the microsecond part omitted when zero, as `datetime.isoformat()` does. -/
def isoformat (t : ℚ) : String :=
  let n : Int := ⌊t⌋
  let usec : Nat := (⌊(t - (n : ℚ)) * 1000000⌋).toNat
  let days := n.ediv 86400
  let sod := (n.emod 86400).toNat
  let c := civilFromDays days
  yearString c.1 ++ "-" ++ pad2 c.2.1 ++ "-" ++ pad2 c.2.2 ++ "T" ++
    pad2 (sod / 3600) ++ ":" ++ pad2 (sod % 3600 / 60) ++ ":" ++ pad2 (sod % 60) ++
    (if usec = 0 then "" else "." ++ pad6 usec)

/-! ## The data model (tables shared with the admin app) -/

/-- Database state: the three tables the request handler touches, in row
iteration order.  `active_sessions(user_email PRIMARY KEY, expires_at)`,
`licenses(key_code, status, duration_hours)`, `file_registry(name, gdrive_id)`. -/
structure Store where
  active_sessions : List (String × ℚ)
  licenses : List (String × String × ℚ)
  file_registry : List (String × String)
deriving Repr, DecidableEq

/-- JSON body of `POST /api/authorize` (src/app.py lines 86-90):
`google_token`, `token_type` (default `"access_token"`), `key`,
`requested_file`. -/
structure Request where
  google_token : Option String
  token_type : String
  key : Option String
  requested_file : Option String
deriving Repr, DecidableEq

/-- JSON response plus HTTP status code.  Fields absent from a given
response dict are `none` (`needs_key` is absent-or-true, modelled as Bool). -/
structure Response where
  status : Nat
  authorized : Bool
  email : Option String := none
  hours_remaining : Option ℚ := none
  gdrive_id : Option String := none
  session_token : Option String := none
  needs_key : Bool := false
  message : Option String := none
  error : Option String := none
deriving Repr, DecidableEq

/-- First row of `SELECT ... WHERE key = k` (`fetchone` on a keyed lookup). -/
def dbLookup {β : Type} : List (String × β) → String → Option β
  | [], _ => none
  | p :: ps, k => if p.1 = k then some p.2 else dbLookup ps k

/-- Effect of `DELETE FROM active_sessions WHERE user_email = :e` (line 136). -/
def dbDeleteSession (l : List (String × ℚ)) (email : String) : List (String × ℚ) :=
  l.filter (fun p => p.1 ≠ email)

/-- Effect of `UPDATE licenses SET status = 'used' WHERE key_code = :k` (line 152). -/
def setUsed (l : List (String × String × ℚ)) (k : String) : List (String × String × ℚ) :=
  l.map (fun p => if p.1 = k then (p.1, ("used", p.2.2)) else p)

/-- Store after the activation transaction commits (lines 152-154): the
licence row is set to `used` and a session row is inserted. -/
def applyActivation (st : Store) (email k : String) (expiry : ℚ) : Store :=
  { st with
    licenses := setUsed st.licenses k,
    active_sessions := st.active_sessions ++ [(email, expiry)] }

/-! ## Token issuing (embedding of `generate_session_token`, lines 50-57) -/

/-- Python `round(x, 2)` on the remaining-hours value (line 131), modelled as
rounding to a multiple of 1/100 (Python rounds the nearest float; exact
half-way ties, unrepresentable in binary floats, round up here). -/
def round2 (q : ℚ) : ℚ := (round (q * 100) : ℤ) / 100

/-- Embedding of `generate_session_token(email, hours)` (lines 50-57).
`secret` is the process-wide `SESSION_SECRET`; `now` is the clock value the
function's own `datetime.now()` call (line 51) returns; `timedelta(hours=h)`
is `h * 3600` seconds. -/
def generate_session_token (secret email : String) (now hours : ℚ) : String :=
  let expiry := now + hours * 3600
  let expiry_str := isoformat expiry
  let message := email ++ ":" ++ expiry_str
  let signature := (hmacSha256Hex secret message).take 16
  email ++ ":" ++ expiry_str ++ ":" ++ signature

/-! ## The authorize endpoint (embedding of `authorize`, lines 84-169) -/

/-- Resource resolution on the active-session path (lines 116-128): a named
file must exist (`.error name` models the 404 return at line 124); with no
name, the first registry row or `"DEFAULT_FALLBACK_ID"` (lines 127-128). -/
def resolveActive (st : Store) (req : Request) : Except String String :=
  match req.requested_file with
  | some name =>
    match dbLookup st.file_registry name with
    | some g => Except.ok g
    | none => Except.error name
  | none =>
    Except.ok ((st.file_registry.head?.map (fun p => p.2)).getD "DEFAULT_FALLBACK_ID")

/-- Resource resolution on the activation path (lines 156-162): here a named
file that is missing falls back to `"DEFAULT_FALLBACK_ID"` (line 159)
instead of returning 404. -/
def resolveActivation (st : Store) (req : Request) : String :=
  match req.requested_file with
  | some name => (dbLookup st.file_registry name).getD "DEFAULT_FALLBACK_ID"
  | none =>
    (st.file_registry.head?.map (fun p => p.2)).getD "DEFAULT_FALLBACK_ID"

/-- ASCII single-quote, used in the 404 message (line 124). -/
def squoteStr : String := String.singleton (Char.ofNat 39)

/-- Licence-key check and activation (lines 139-169), reached when no live
session exists.  `clock 0` is the `datetime.now()` of line 151 and `clock 1`
the one inside `generate_session_token` at line 168. -/
def checkLicense (secret : String) (clock : Nat → ℚ) (st : Store)
    (email : String) (req : Request) : Response × Store :=
  match req.key with
  | none =>
    ({ status := 401, authorized := false, needs_key := true,
       error := some "Active license required." }, st)
  | some k =>
    match dbLookup st.licenses k with
    | none => ({ status := 403, authorized := false, error := some "Invalid license key" }, st)
    | some (stat, dur) =>
      if stat = "used" then
        ({ status := 403, authorized := false, error := some "Key already used" }, st)
      else
        let new_expiry := clock 0 + dur * 3600
        let st2 := applyActivation st email k new_expiry
        let g := resolveActivation st2 req
        ({ status := 200, authorized := true,
           message := some ("Activated for " ++ toString dur ++ " hours"),
           email := some email, hours_remaining := some dur,
           gdrive_id := some g,
           session_token := some (generate_session_token secret email (clock 1) dur) }, st2)

/-- The `POST /api/authorize` handler (lines 84-169).  `verify` is the
injected `verify_google_token` collaborator; `clock n` is the value returned
by the `n`-th `datetime.now()` call executed by the request, in program
order (line 112, then line 113, then line 51 on the session path; line 151
then line 51 on the activation path). -/
def authorize (secret : String) (verify : String → String → Except String String)
    (clock : Nat → ℚ) (st : Store) (req : Request) : Response × Store :=
  match req.google_token with
  | none => ({ status := 400, authorized := false, error := some "Google token required" }, st)
  | some tok =>
    match verify tok req.token_type with
    | Except.error e =>
      ({ status := 403, authorized := false,
         error := some ("Google auth failed: " ++ e) }, st)
    | Except.ok email =>
      match dbLookup st.active_sessions email with
      | some expires_at =>
        if clock 0 < expires_at then
          let remaining := (expires_at - clock 1) / 3600
          match resolveActive st req with
          | Except.error name =>
            ({ status := 404, authorized := false,
               error := some ("File " ++ squoteStr ++ name ++ squoteStr ++ " not found on server.") }, st)
          | Except.ok g =>
            ({ status := 200, authorized := true, email := some email,
               hours_remaining := some (round2 remaining), gdrive_id := some g,
               session_token :=
                 some (generate_session_token secret email (clock 2) remaining) }, st)
        else
          checkLicense secret (fun n => clock (n + 1))
            { st with active_sessions := dbDeleteSession st.active_sessions email }
            email req
      | none => checkLicense secret clock st email req

/-! ## Request-level predicates -/

/-- The request carries a credential that the injected verifier resolves to
`email` (the success case of step 1, lines 92-98). -/
def verifiedEmail (verify : String → String → Except String String)
    (req : Request) (email : String) : Prop :=
  ∃ tok, req.google_token = some tok ∧ verify tok req.token_type = Except.ok email

/-- No live session for `email` at clock value `t`: the session row is absent,
or its expiry is not strictly in the future (line 112's test fails). -/
def noLiveSession (st : Store) (email : String) (t : ℚ) : Prop :=
  ∀ exp, dbLookup st.active_sessions email = some exp → exp ≤ t

/-- Resource resolution on the active-session path cannot 404: either no file
is named, or the named file is present in the registry. -/
def resolveOkB (st : Store) (req : Request) : Bool :=
  match req.requested_file with
  | none => true
  | some n => (dbLookup st.file_registry n).isSome

/-- Number of `datetime.now()` calls a request executes before reaching the
activation code when it finds no live session: 1 when a session row existed
(the line 112 liveness test ran before the row was deleted), 0 when none did.
The activation expiry (line 151) then uses reading `priorReads`, and the
token expiry (line 51 via line 168) reading `priorReads + 1`. -/
def priorReads (st : Store) (email : String) : Nat :=
  if (dbLookup st.active_sessions email).isSome then 1 else 0

/-! ## Two-request interleaving model of the activation critical section

Lines 143-154 run as: one SELECT of the licence row, then (if the observed
status is not `used`) an UPDATE plus INSERT committed together.  The
connection sets no isolation level beyond the database default
(read-committed), so each statement sees the last committed state and
nothing stops two requests from both reading before either commits.  A
request is therefore two atomic phases: `raceRead` (the SELECT of lines
143-145) and `raceFinish` (the checks of lines 147-148 on the *observed*
row, and the UPDATE/INSERT/commit of lines 151-154). -/

def raceRead (st : Store) (k : String) : Option (String × ℚ) :=
  dbLookup st.licenses k

/-- Decision and commit on the row observed earlier: `none` is the line 147
rejection, observed status `used` the line 148 rejection; otherwise the
activation of lines 151-154 commits.  Returns the new committed store and
whether the request succeeded (`authorized` of its response). -/
def raceFinish (st : Store) (email k : String) (now : ℚ)
    (obs : Option (String × ℚ)) : Store × Bool :=
  match obs with
  | none => (st, false)
  | some (stat, dur) =>
    if stat = "used" then (st, false)
    else (applyActivation st email k (now + dur * 3600), true)

/-- Per-request progress: the observed row once read, and the final outcome. -/
structure ReqState where
  obs : Option (Option (String × ℚ))
  resp : Option Bool
deriving Repr, DecidableEq

/-- One scheduler step: request `i` executes its next atomic phase (its read
if it has not read yet, its finish if it has read but not finished). -/
def raceStep (k : String) (emails : Bool → String) (now : ℚ)
    (s : Store × (Bool → ReqState)) (i : Bool) : Store × (Bool → ReqState) :=
  match (s.2 i).obs with
  | none =>
    (s.1, fun j => if j = i then { obs := some (raceRead s.1 k), resp := none } else s.2 j)
  | some o =>
    match (s.2 i).resp with
    | some _ => s
    | none =>
      let fin := raceFinish s.1 (emails i) k now o
      (fin.1, fun j => if j = i then { obs := some o, resp := some fin.2 } else s.2 j)

/-- Run two concurrent requests presenting the same key under an explicit
interleaving `sched` of their atomic phases. -/
def runRace (k : String) (emails : Bool → String) (now : ℚ) (st0 : Store)
    (sched : List Bool) : Store × (Bool → ReqState) :=
  sched.foldl (raceStep k emails now) (st0, fun _ => { obs := none, resp := none })

/-! ## Helper lemmas on the table operations -/

theorem dbLookup_append_self {β : Type} (l : List (String × β)) (e : String) (x : β)
    (h : dbLookup l e = none) : dbLookup (l ++ [(e, x)]) e = some x := by
  induction l with
  | nil => simp [dbLookup]
  | cons p ps ih =>
    simp only [dbLookup, List.cons_append] at h ⊢
    by_cases hp : p.1 = e
    · simp [hp] at h
    · simp only [hp, if_false] at h ⊢
      exact ih h

theorem dbLookup_delete_self (l : List (String × ℚ)) (e : String) :
    dbLookup (dbDeleteSession l e) e = none := by
  induction l with
  | nil => rfl
  | cons p ps ih =>
    obtain ⟨a, x⟩ := p
    simp only [dbDeleteSession] at ih
    by_cases hp : a = e
    · simpa [dbDeleteSession, hp] using ih
    · simp only [dbDeleteSession, List.filter_cons]
      simp only [ne_eq, hp, not_false_eq_true, decide_True, if_true, dbLookup]
      simpa using ih

theorem dbLookup_setUsed_self (l : List (String × String × ℚ)) (k s : String) (d : ℚ)
    (h : dbLookup l k = some (s, d)) : dbLookup (setUsed l k) k = some ("used", d) := by
  induction l with
  | nil => simp [dbLookup] at h
  | cons p ps ih =>
    obtain ⟨a, s2, d2⟩ := p
    simp only [setUsed] at ih
    by_cases hp : a = k
    · subst hp
      simp [dbLookup, setUsed] at h ⊢
      simp_all
    · simp only [dbLookup] at h
      rw [if_neg hp] at h
      simp only [setUsed, List.map_cons]
      rw [if_neg hp]
      simp only [dbLookup]
      rw [if_neg hp]
      exact ih h

theorem dbLookup_setUsed_used (l : List (String × String × ℚ)) (k k2 : String) (d : ℚ)
    (h : dbLookup l k2 = some ("used", d)) :
    dbLookup (setUsed l k) k2 = some ("used", d) := by
  induction l with
  | nil => simp [dbLookup] at h
  | cons p ps ih =>
    obtain ⟨a, s2, d2⟩ := p
    simp only [setUsed] at ih
    simp only [dbLookup] at h
    simp only [setUsed, List.map_cons]
    by_cases hp2 : a = k2
    · rw [if_pos hp2] at h
      simp only [Option.some.injEq, Prod.mk.injEq] at h
      obtain ⟨h1, h2⟩ := h
      subst h1
      subst h2
      by_cases hp : a = k
      · rw [if_pos hp]
        simp only [dbLookup]
        rw [if_pos hp2]
      · rw [if_neg hp]
        simp only [dbLookup]
        rw [if_pos hp2]
    · rw [if_neg hp2] at h
      by_cases hp : a = k
      · rw [if_pos hp]
        simp only [dbLookup]
        rw [if_neg]
        · exact ih h
        · exact hp2
      · rw [if_neg hp]
        simp only [dbLookup]
        rw [if_neg hp2]
        exact ih h

/-! ## Branch lemmas for `authorize` -/

theorem authorize_session_none (secret : String)
    (verify : String → String → Except String String) (clock : Nat → ℚ)
    (st : Store) (req : Request) (email : String)
    (hv : verifiedEmail verify req email)
    (hs : dbLookup st.active_sessions email = none) :
    authorize secret verify clock st req = checkLicense secret clock st email req := by
  obtain ⟨tok, htok, hok⟩ := hv
  obtain ⟨gt, tt, k, f⟩ := req
  simp only at htok
  subst htok
  simp only [authorize, hok, hs]

theorem authorize_session_dead (secret : String)
    (verify : String → String → Except String String) (clock : Nat → ℚ)
    (st : Store) (req : Request) (email : String) (exp : ℚ)
    (hv : verifiedEmail verify req email)
    (hs : dbLookup st.active_sessions email = some exp)
    (hexp : exp ≤ clock 0) :
    authorize secret verify clock st req =
      checkLicense secret (fun n => clock (n + 1))
        { st with active_sessions := dbDeleteSession st.active_sessions email }
        email req := by
  obtain ⟨tok, htok, hok⟩ := hv
  obtain ⟨gt, tt, k, f⟩ := req
  simp only at htok
  subst htok
  simp only [authorize, hok, hs, not_lt.mpr hexp, if_false]

theorem authorize_session_live (secret : String)
    (verify : String → String → Except String String) (clock : Nat → ℚ)
    (st : Store) (req : Request) (email : String) (exp : ℚ)
    (hv : verifiedEmail verify req email)
    (hs : dbLookup st.active_sessions email = some exp)
    (hexp : clock 0 < exp) :
    authorize secret verify clock st req =
      (match resolveActive st req with
       | Except.error name =>
         ({ status := 404, authorized := false,
            error := some ("File " ++ squoteStr ++ name ++ squoteStr ++ " not found on server.") }, st)
       | Except.ok g =>
         ({ status := 200, authorized := true, email := some email,
            hours_remaining := some (round2 ((exp - clock 1) / 3600)), gdrive_id := some g,
            session_token :=
              some (generate_session_token secret email (clock 2) ((exp - clock 1) / 3600)) }, st)) := by
  obtain ⟨tok, htok, hok⟩ := hv
  obtain ⟨gt, tt, k, f⟩ := req
  simp only at htok
  subst htok
  simp only [authorize, hok, hs, hexp, if_true]

theorem checkLicense_activate (secret : String) (clock : Nat → ℚ)
    (st : Store) (email : String) (req : Request) (k s : String) (d : ℚ)
    (hk : req.key = some k)
    (hl : dbLookup st.licenses k = some (s, d))
    (hs : s ≠ "used") :
    checkLicense secret clock st email req =
      ({ status := 200, authorized := true,
         message := some ("Activated for " ++ toString d ++ " hours"),
         email := some email, hours_remaining := some d,
         gdrive_id := some (resolveActivation (applyActivation st email k (clock 0 + d * 3600)) req),
         session_token := some (generate_session_token secret email (clock 1) d) },
       applyActivation st email k (clock 0 + d * 3600)) := by
  obtain ⟨gt, tt, kk, f⟩ := req
  simp only at hk
  subst hk
  simp only [checkLicense, hl, hs, if_false]

/-! ## Auxiliary facts: rounding, digest shape, branch reductions -/

theorem round2_mono {a b : ℚ} (h : a ≤ b) : round2 a ≤ round2 b := by
  unfold round2
  have hr : round (a * 100) ≤ round (b * 100) := by
    rw [round_eq, round_eq]
    exact Int.floor_le_floor (by linarith)
  rw [div_le_div_iff_of_pos_right (by norm_num : (0:ℚ) < 100)]
  exact_mod_cast hr

theorem beBytes_length (n v : Nat) : (Sha256.beBytes n v).length = n := by
  induction n generalizing v with
  | zero => rfl
  | succ n ih => simp [Sha256.beBytes, ih]

theorem beBytes_lt (n v : Nat) : ∀ b ∈ Sha256.beBytes n v, b < 256 := by
  induction n generalizing v with
  | zero => intro b hb; simp [Sha256.beBytes] at hb
  | succ n ih =>
    intro b hb
    simp only [Sha256.beBytes, List.mem_append, List.mem_singleton] at hb
    rcases hb with hb | hb
    · exact ih _ b hb
    · subst hb; exact Nat.mod_lt _ (by norm_num)

theorem sha256Round_length (st : List Nat) (kw : Nat × Nat) :
    (Sha256.sha256Round st kw).length = st.length := by
  unfold Sha256.sha256Round
  split
  · rfl
  · rfl

theorem foldl_sha256Round_length (l : List (Nat × Nat)) (h : List Nat) :
    (l.foldl Sha256.sha256Round h).length = h.length := by
  induction l generalizing h with
  | nil => rfl
  | cons p ps ih => rw [List.foldl_cons, ih, sha256Round_length]

theorem compressBlock_length (h b : List Nat) :
    (Sha256.compressBlock h b).length = h.length := by
  unfold Sha256.compressBlock
  simp [List.length_zip, foldl_sha256Round_length]

theorem foldl_compressBlock_length (bs : List (List Nat)) (h : List Nat) :
    (bs.foldl Sha256.compressBlock h).length = h.length := by
  induction bs generalizing h with
  | nil => rfl
  | cons b bs ih => rw [List.foldl_cons, ih, compressBlock_length]

theorem flatten_beBytes4_length (l : List Nat) :
    ((l.map (Sha256.beBytes 4)).flatten).length = 4 * l.length := by
  induction l with
  | nil => rfl
  | cons a l ih =>
    simp only [List.map_cons, List.flatten_cons, List.length_append, ih,
      beBytes_length, List.length_cons]
    omega

theorem sha256_length (msg : List Nat) : (Sha256.sha256 msg).length = 32 := by
  unfold Sha256.sha256
  rw [flatten_beBytes4_length, foldl_compressBlock_length]
  rfl

theorem sha256_bytes_lt (msg : List Nat) : ∀ b ∈ Sha256.sha256 msg, b < 256 := by
  unfold Sha256.sha256
  intro b hb
  simp only [List.mem_flatten, List.mem_map] at hb
  obtain ⟨l, ⟨w, _, hw⟩, hbl⟩ := hb
  exact beBytes_lt 4 w b (hw ▸ hbl)

theorem hmacSha256_length (key msg : List Nat) : (hmacSha256 key msg).length = 32 := by
  unfold hmacSha256
  exact sha256_length _

theorem hmacSha256_bytes_lt (key msg : List Nat) : ∀ b ∈ hmacSha256 key msg, b < 256 := by
  unfold hmacSha256
  exact sha256_bytes_lt _

theorem bytesToHex_length (l : List Nat) : (bytesToHex l).length = 2 * l.length := by
  show ((l.map (fun b => [hexChar (b / 16), hexChar (b % 16)])).flatten).length = 2 * l.length
  induction l with
  | nil => rfl
  | cons a l ih =>
    simp only [List.map_cons, List.flatten_cons, List.length_append, ih,
      List.length_cons, List.length_nil]
    omega

theorem hexChar_mem (n : Nat) (h : n < 16) :
    ("0123456789abcdef".data).contains (hexChar n) = true := by
  interval_cases n <;> decide

theorem bytesToHex_isHex (l : List Nat) (hl : ∀ b ∈ l, b < 256) :
    isHexString (bytesToHex l) = true := by
  unfold isHexString bytesToHex
  rw [List.all_eq_true]
  intro c hc
  simp only [List.mem_flatten, List.mem_map] at hc
  obtain ⟨cs, ⟨b, hb, hcs⟩, hccs⟩ := hc
  subst hcs
  simp only [List.mem_cons, List.mem_singleton, List.not_mem_nil, or_false] at hccs
  rcases hccs with hcc | hcc
  · subst hcc
    exact hexChar_mem _ (Nat.div_lt_of_lt_mul (by simpa [Nat.mul_comm] using hl b hb))
  · subst hcc
    exact hexChar_mem _ (Nat.mod_lt _ (by norm_num))

theorem hmacSha256Hex_length (secret msg : String) :
    (hmacSha256Hex secret msg).length = 64 := by
  unfold hmacSha256Hex
  rw [bytesToHex_length, hmacSha256_length]

theorem hmacSha256Hex_isHex (secret msg : String) :
    isHexString (hmacSha256Hex secret msg) = true := by
  unfold hmacSha256Hex
  exact bytesToHex_isHex _ (hmacSha256_bytes_lt _ _)

theorem isHexString_take (s : String) (n : Nat) (h : isHexString s = true) :
    isHexString (s.take n) = true := by
  unfold isHexString at h ⊢
  rw [String.data_take]
  rw [List.all_eq_true] at h ⊢
  intro c hc
  exact h c (List.mem_of_mem_take hc)

theorem take16_length (s : String) (h : s.length = 64) : (s.take 16).length = 16 := by
  have h2 : s.data.length = 64 := h
  simp only [String.length, String.data_take, List.length_take]
  omega

theorem resolveOkB_ok (st : Store) (req : Request) (h : resolveOkB st req = true) :
    ∃ g, resolveActive st req = Except.ok g := by
  unfold resolveOkB at h
  unfold resolveActive
  cases hf : req.requested_file with
  | none => simp only [hf]; exact ⟨_, rfl⟩
  | some n =>
    simp only [hf] at h ⊢
    cases hl : dbLookup st.file_registry n with
    | none => rw [hl] at h; simp at h
    | some g => simp only [hl]; exact ⟨g, rfl⟩

theorem checkLicense_nokey (secret : String) (clock : Nat → ℚ) (st : Store)
    (email : String) (req : Request) (hk : req.key = none) :
    checkLicense secret clock st email req =
      ({ status := 401, authorized := false, needs_key := true,
         error := some "Active license required." }, st) := by
  obtain ⟨gt, tt, kk, f⟩ := req
  simp only at hk
  subst hk
  simp only [checkLicense]

theorem checkLicense_invalid (secret : String) (clock : Nat → ℚ) (st : Store)
    (email : String) (req : Request) (k : String)
    (hk : req.key = some k) (hl : dbLookup st.licenses k = none) :
    checkLicense secret clock st email req =
      ({ status := 403, authorized := false, error := some "Invalid license key" }, st) := by
  obtain ⟨gt, tt, kk, f⟩ := req
  simp only at hk
  subst hk
  simp only [checkLicense, hl]

theorem checkLicense_used (secret : String) (clock : Nat → ℚ) (st : Store)
    (email : String) (req : Request) (k : String) (d : ℚ)
    (hk : req.key = some k) (hl : dbLookup st.licenses k = some ("used", d)) :
    checkLicense secret clock st email req =
      ({ status := 403, authorized := false, error := some "Key already used" }, st) := by
  obtain ⟨gt, tt, kk, f⟩ := req
  simp only at hk
  subst hk
  simp [checkLicense, hl]

theorem checkLicense_licenses_shape (secret : String) (clock : Nat → ℚ) (st : Store)
    (email : String) (req : Request) :
    (checkLicense secret clock st email req).2.licenses = st.licenses ∨
    ∃ k, (checkLicense secret clock st email req).2.licenses = setUsed st.licenses k := by
  unfold checkLicense
  split
  · left; rfl
  · split
    · left; rfl
    · split
      · left; rfl
      · right; exact ⟨_, rfl⟩

theorem authorize_licenses_shape (secret : String)
    (verify : String → String → Except String String) (clock : Nat → ℚ)
    (st : Store) (req : Request) :
    (authorize secret verify clock st req).2.licenses = st.licenses ∨
    ∃ k, (authorize secret verify clock st req).2.licenses = setUsed st.licenses k := by
  unfold authorize
  split
  · left; rfl
  · split
    · left; rfl
    · split
      · split
        · split
          · left; rfl
          · left; rfl
        · exact checkLicense_licenses_shape _ _ _ _ _
      · exact checkLicense_licenses_shape _ _ _ _ _

theorem authorize_live_core (secret : String)
    (verify : String → String → Except String String) (clock : Nat → ℚ)
    (st : Store) (req : Request) (email : String) (exp : ℚ)
    (hv : verifiedEmail verify req email)
    (hs : dbLookup st.active_sessions email = some exp)
    (hl : clock 0 < exp) :
    (authorize secret verify clock st req).2 = st ∧
    (resolveOkB st req = true →
      (authorize secret verify clock st req).1.authorized = true ∧
      (authorize secret verify clock st req).1.status = 200 ∧
      (authorize secret verify clock st req).1.email = some email ∧
      (authorize secret verify clock st req).1.hours_remaining =
        some (round2 ((exp - clock 1) / 3600)) ∧
      (∃ g, (authorize secret verify clock st req).1.gdrive_id = some g) ∧
      (authorize secret verify clock st req).1.session_token =
        some (generate_session_token secret email (clock 2) ((exp - clock 1) / 3600))) := by
  rw [authorize_session_live secret verify clock st req email exp hv hs hl]
  constructor
  · cases hr : resolveActive st req with
    | error name => simp only [hr]
    | ok g => simp only [hr]
  · intro hok
    obtain ⟨g, hg⟩ := resolveOkB_ok st req hok
    simp [hg]

theorem authorize_no_live_activate (secret : String)
    (verify : String → String → Except String String) (clock : Nat → ℚ)
    (st : Store) (req : Request) (email k s : String) (d : ℚ)
    (hv : verifiedEmail verify req email)
    (hnl : noLiveSession st email (clock 0))
    (hk : req.key = some k)
    (hl : dbLookup st.licenses k = some (s, d))
    (hs2 : s ≠ "used") :
    (authorize secret verify clock st req).1.authorized = true ∧
    (authorize secret verify clock st req).1.status = 200 ∧
    (authorize secret verify clock st req).1.email = some email ∧
    (authorize secret verify clock st req).1.hours_remaining = some d ∧
    (∃ g, (authorize secret verify clock st req).1.gdrive_id = some g) ∧
    (authorize secret verify clock st req).1.session_token =
      some (generate_session_token secret email (clock (priorReads st email + 1)) d) ∧
    dbLookup (authorize secret verify clock st req).2.licenses k = some ("used", d) ∧
    dbLookup (authorize secret verify clock st req).2.active_sessions email =
      some (clock (priorReads st email) + d * 3600) := by
  cases hsess : dbLookup st.active_sessions email with
  | none =>
    rw [authorize_session_none secret verify clock st req email hv hsess,
        checkLicense_activate secret clock st email req k s d hk hl hs2]
    have hpr : priorReads st email = 0 := by simp [priorReads, hsess]
    rw [hpr]
    refine ⟨rfl, rfl, rfl, rfl, ⟨_, rfl⟩, rfl, ?_, ?_⟩
    · exact dbLookup_setUsed_self st.licenses k s d hl
    · exact dbLookup_append_self st.active_sessions email _ hsess
  | some exp =>
    have hexp : exp ≤ clock 0 := hnl exp hsess
    rw [authorize_session_dead secret verify clock st req email exp hv hsess hexp,
        checkLicense_activate secret (fun n => clock (n + 1))
          { st with active_sessions := dbDeleteSession st.active_sessions email }
          email req k s d hk hl hs2]
    have hpr : priorReads st email = 1 := by simp [priorReads, hsess]
    rw [hpr]
    refine ⟨rfl, rfl, rfl, rfl, ⟨_, rfl⟩, rfl, ?_, ?_⟩
    · exact dbLookup_setUsed_self st.licenses k s d hl
    · exact dbLookup_append_self _ email _ (dbLookup_delete_self st.active_sessions email)

/-! ## Claim theorems -/

/-- C2: for every request with a verified identity, no live session, and a
supplied key whose licence row has status `unused` and granted duration `d`,
`authorize` sets that licence's status to `used`, inserts a session row for
the identity expiring `d * 3600` seconds after the activation clock reading,
and returns success (`authorized:true`, HTTP 200) carrying the identity, the
full granted hours `d` as `hours_remaining`, a resource identifier, and a
session token. -/
theorem authorize_activation_unused_key (secret : String)
    (verify : String → String → Except String String) (clock : Nat → ℚ)
    (st : Store) (req : Request) (email k : String) (d : ℚ)
    (hv : verifiedEmail verify req email)
    (hnl : noLiveSession st email (clock 0))
    (hk : req.key = some k)
    (hl : dbLookup st.licenses k = some ("unused", d)) :
    (authorize secret verify clock st req).1.authorized = true ∧
    (authorize secret verify clock st req).1.status = 200 ∧
    (authorize secret verify clock st req).1.email = some email ∧
    (authorize secret verify clock st req).1.hours_remaining = some d ∧
    (∃ g, (authorize secret verify clock st req).1.gdrive_id = some g) ∧
    (authorize secret verify clock st req).1.session_token =
      some (generate_session_token secret email (clock (priorReads st email + 1)) d) ∧
    dbLookup (authorize secret verify clock st req).2.licenses k = some ("used", d) ∧
    dbLookup (authorize secret verify clock st req).2.active_sessions email =
      some (clock (priorReads st email) + d * 3600) :=
  authorize_no_live_activate secret verify clock st req email k "unused" d
    hv hnl hk hl (by decide)

/-- C2 witness: a concrete activation of an unused 5-hour key. -/
theorem authorize_activation_unused_key_witness :
    let out := authorize "s" (fun _ _ => Except.ok "au@x.com") (fun _ => 100)
      ⟨[], [("KEY1", ("unused", 5))], [("f.pdf", "G1")]⟩
      ⟨some "t", "access_token", some "KEY1", none⟩
    out.1.authorized = true ∧ out.1.status = 200 ∧ out.1.email = some "au@x.com" ∧
    out.1.hours_remaining = some 5 ∧ (∃ g, out.1.gdrive_id = some g) ∧
    out.1.session_token = some (generate_session_token "s" "au@x.com" 100 5) ∧
    dbLookup out.2.licenses "KEY1" = some ("used", 5) ∧
    dbLookup out.2.active_sessions "au@x.com" = some (100 + 5 * 3600) := by
  exact authorize_activation_unused_key "s" (fun _ _ => Except.ok "au@x.com")
    (fun _ => 100) ⟨[], [("KEY1", ("unused", 5))], [("f.pdf", "G1")]⟩
    ⟨some "t", "access_token", some "KEY1", none⟩ "au@x.com" "KEY1" 5
    ⟨"t", rfl, rfl⟩ (fun exp h => by simp [dbLookup] at h) rfl (by decide)

/-- C10: for every licence row found for the supplied key, `authorize`
activates it whenever its status is any string other than exactly `used`
(line 148 tests `row[0] == 'used'`, not `== 'unused'`): the row's status is
overwritten with `used`, a session is inserted, and the request succeeds. -/
theorem authorize_activates_any_status_not_used (secret : String)
    (verify : String → String → Except String String) (clock : Nat → ℚ)
    (st : Store) (req : Request) (email k s : String) (d : ℚ)
    (hv : verifiedEmail verify req email)
    (hnl : noLiveSession st email (clock 0))
    (hk : req.key = some k)
    (hl : dbLookup st.licenses k = some (s, d))
    (hns : s ≠ "used") :
    (authorize secret verify clock st req).1.authorized = true ∧
    (authorize secret verify clock st req).1.status = 200 ∧
    dbLookup (authorize secret verify clock st req).2.licenses k = some ("used", d) ∧
    dbLookup (authorize secret verify clock st req).2.active_sessions email =
      some (clock (priorReads st email) + d * 3600) := by
  obtain ⟨h1, h2, _, _, _, _, h7, h8⟩ :=
    authorize_no_live_activate secret verify clock st req email k s d hv hnl hk hl hns
  exact ⟨h1, h2, h7, h8⟩

/-- C10 witness: a licence row with status `revoked` (neither `unused` nor
`used`) is activated as if unused. -/
theorem authorize_activates_any_status_not_used_witness :
    let out := authorize "s" (fun _ _ => Except.ok "rv@x.com") (fun _ => 0)
      ⟨[], [("KEYR", ("revoked", 7))], []⟩
      ⟨some "t", "access_token", some "KEYR", none⟩
    out.1.authorized = true ∧ out.1.status = 200 ∧
    dbLookup out.2.licenses "KEYR" = some ("used", 7) ∧
    dbLookup out.2.active_sessions "rv@x.com" = some (0 + 7 * 3600) := by
  exact authorize_activates_any_status_not_used "s" (fun _ _ => Except.ok "rv@x.com")
    (fun _ => 0) ⟨[], [("KEYR", ("revoked", 7))], []⟩
    ⟨some "t", "access_token", some "KEYR", none⟩ "rv@x.com" "KEYR" "revoked" 7
    ⟨"t", rfl, rfl⟩ (fun exp h => by simp [dbLookup] at h) rfl (by decide) (by decide)

/-- C6: a session row whose `expires_at` equals the current clock reading
exactly is treated as expired: the request does not take the active-session
path; it deletes the session row (so the deleted table no longer has the
row) and falls through to the licence check on the updated store. -/
theorem authorize_expiry_boundary_expired (secret : String)
    (verify : String → String → Except String String) (clock : Nat → ℚ)
    (st : Store) (req : Request) (email : String) (exp : ℚ)
    (hv : verifiedEmail verify req email)
    (hs : dbLookup st.active_sessions email = some exp)
    (heq : clock 0 = exp) :
    authorize secret verify clock st req =
      checkLicense secret (fun n => clock (n + 1))
        { st with active_sessions := dbDeleteSession st.active_sessions email }
        email req ∧
    dbLookup (dbDeleteSession st.active_sessions email) email = none := by
  constructor
  · exact authorize_session_dead secret verify clock st req email exp hv hs
      (le_of_eq heq.symm)
  · exact dbLookup_delete_self _ _

/-- C6 witness: at the exact boundary `now = expires_at = 3600`, the request
falls through to the licence check on the session-deleted store. -/
theorem authorize_expiry_boundary_expired_witness :
    authorize "s" (fun _ _ => Except.ok "b6@x.com") (fun _ => 3600)
      ⟨[("b6@x.com", 3600)], [], []⟩ ⟨some "t", "access_token", none, none⟩ =
      checkLicense "s" (fun _ => 3600) ⟨[], [], []⟩ "b6@x.com"
        ⟨some "t", "access_token", none, none⟩ ∧
    dbLookup (dbDeleteSession [("b6@x.com", 3600)] "b6@x.com") "b6@x.com" = none := by
  exact authorize_expiry_boundary_expired "s" (fun _ _ => Except.ok "b6@x.com")
    (fun _ => 3600) ⟨[("b6@x.com", 3600)], [], []⟩
    ⟨some "t", "access_token", none, none⟩ "b6@x.com" 3600
    ⟨"t", rfl, rfl⟩ (by decide) rfl

/-- C7 counterexample: a request that finds a live session (0 < 7200) but
names a file absent from the registry is answered 404 with
`authorized:false`, so the claim's unconditional "returns success" clause
fails even though no store is written. -/
theorem active_session_missing_file_not_success :
    let out := authorize "s" (fun _ _ => Except.ok "c7@x.com") (fun _ => 0)
      ⟨[("c7@x.com", 7200)], [], [("b.pdf", "G2")]⟩
      ⟨some "t", "access_token", none, some "absent.pdf"⟩
    (0:ℚ) < 7200 ∧ dbLookup [("b.pdf", "G2")] "absent.pdf" = none ∧
    out.1.authorized = false ∧ out.1.status = 404 := by decide

/-- C7 amended: a request finding a live session (`now < expires_at`) never
writes any store (the post-store equals the pre-store, also on the 404
branch); and whenever it does not name a missing resource it returns success
with the identity, the rounded remaining hours, a resource id, and a token
generated for exactly the remaining duration. -/
theorem authorize_active_session_frame (secret : String)
    (verify : String → String → Except String String) (clock : Nat → ℚ)
    (st : Store) (req : Request) (email : String) (exp : ℚ)
    (hv : verifiedEmail verify req email)
    (hs : dbLookup st.active_sessions email = some exp)
    (hl : clock 0 < exp) :
    (authorize secret verify clock st req).2 = st ∧
    (resolveOkB st req = true →
      (authorize secret verify clock st req).1.authorized = true ∧
      (authorize secret verify clock st req).1.status = 200 ∧
      (authorize secret verify clock st req).1.email = some email ∧
      (authorize secret verify clock st req).1.hours_remaining =
        some (round2 ((exp - clock 1) / 3600)) ∧
      (∃ g, (authorize secret verify clock st req).1.gdrive_id = some g) ∧
      (authorize secret verify clock st req).1.session_token =
        some (generate_session_token secret email (clock 2) ((exp - clock 1) / 3600))) :=
  authorize_live_core secret verify clock st req email exp hv hs hl

/-- C7 witness: a concrete live-session request leaves the store unchanged
and succeeds with the remaining duration. -/
theorem authorize_active_session_frame_witness :
    let st : Store := ⟨[("c7w@x.com", 3600)], [("K", ("unused", 2))], [("a.pdf", "GA")]⟩
    let out := authorize "s" (fun _ _ => Except.ok "c7w@x.com") (fun _ => 0) st
      ⟨some "t", "access_token", none, none⟩
    out.2 = st ∧ out.1.authorized = true ∧
    out.1.hours_remaining = some (round2 ((3600 - 0) / 3600)) ∧
    out.1.session_token =
      some (generate_session_token "s" "c7w@x.com" 0 ((3600 - 0) / 3600)) := by
  have h := authorize_active_session_frame "s" (fun _ _ => Except.ok "c7w@x.com")
    (fun _ => 0) ⟨[("c7w@x.com", 3600)], [("K", ("unused", 2))], [("a.pdf", "GA")]⟩
    ⟨some "t", "access_token", none, none⟩ "c7w@x.com" 3600
    ⟨"t", rfl, rfl⟩ rfl (by decide)
  obtain ⟨hf, hsucc⟩ := h
  obtain ⟨h1, _, _, h4, _, h6⟩ := hsucc (by decide)
  exact ⟨hf, h1, h4, h6⟩

/-- C8 counterexample: an identity holds a live session at both call times
(0 and 600, both before expiry 9000), yet the second call — which names a
file absent from the registry — returns `authorized:false`, refuting the
claim that all repeated calls return `authorized:true`. -/
theorem repeated_call_missing_file_not_authorized :
    let st : Store := ⟨[("c8@x.com", 9000)], [], [("c.pdf", "G3")]⟩
    let r1 := authorize "s" (fun _ _ => Except.ok "c8@x.com") (fun _ => 0) st
      ⟨some "t", "access_token", none, none⟩
    let r2 := authorize "s" (fun _ _ => Except.ok "c8@x.com") (fun _ => 600) r1.2
      ⟨some "t", "access_token", none, some "absent.doc"⟩
    (0:ℚ) ≤ 600 ∧ (600:ℚ) < 9000 ∧ r1.1.authorized = true ∧
    r2.1.authorized = false := by decide

/-- C8 amended: for an identity with a session live at both of two
non-decreasing call times, neither call writes any store (in particular no
licence changes status), each call that does not name a missing resource
returns `authorized:true`, and the reported `hours_remaining` is
non-increasing from the first call to the second. -/
theorem authorize_active_repeated_monotone (secret : String)
    (verify : String → String → Except String String) (c1 c2 : Nat → ℚ)
    (st : Store) (req1 req2 : Request) (email : String) (exp : ℚ)
    (hv1 : verifiedEmail verify req1 email)
    (hv2 : verifiedEmail verify req2 email)
    (hs : dbLookup st.active_sessions email = some exp)
    (hl1 : c1 0 < exp) (hl2 : c2 0 < exp)
    (hc : c1 1 ≤ c2 1) :
    (authorize secret verify c1 st req1).2 = st ∧
    (authorize secret verify c2 (authorize secret verify c1 st req1).2 req2).2 = st ∧
    (resolveOkB st req1 = true →
      (authorize secret verify c1 st req1).1.authorized = true ∧
      (authorize secret verify c1 st req1).1.hours_remaining =
        some (round2 ((exp - c1 1) / 3600))) ∧
    (resolveOkB st req2 = true →
      (authorize secret verify c2 (authorize secret verify c1 st req1).2 req2).1.authorized = true ∧
      (authorize secret verify c2 (authorize secret verify c1 st req1).2 req2).1.hours_remaining =
        some (round2 ((exp - c2 1) / 3600))) ∧
    round2 ((exp - c2 1) / 3600) ≤ round2 ((exp - c1 1) / 3600) := by
  obtain ⟨hf1, hs1⟩ := authorize_live_core secret verify c1 st req1 email exp hv1 hs hl1
  obtain ⟨hf2, hs2⟩ := authorize_live_core secret verify c2 st req2 email exp hv2 hs hl2
  rw [hf1]
  refine ⟨rfl, hf2, ?_, ?_, ?_⟩
  · intro h
    obtain ⟨a1, _, _, a4, _, _⟩ := hs1 h
    exact ⟨a1, a4⟩
  · intro h
    obtain ⟨a1, _, _, a4, _, _⟩ := hs2 h
    exact ⟨a1, a4⟩
  · have hsub : exp - c2 1 ≤ exp - c1 1 := sub_le_sub_left hc exp
    exact round2_mono ((div_le_div_iff_of_pos_right (by norm_num : (0:ℚ) < 3600)).mpr hsub)

/-- C8 witness: two concrete calls at times 0 and 600 against a session
expiring at 9000 both succeed, with non-increasing remaining hours. -/
theorem authorize_active_repeated_monotone_witness :
    let st : Store := ⟨[("c8w@x.com", 9000)], [("K", ("used", 1))], []⟩
    let r1 := authorize "s" (fun _ _ => Except.ok "c8w@x.com") (fun _ => 0) st
      ⟨some "t", "access_token", none, none⟩
    let r2 := authorize "s" (fun _ _ => Except.ok "c8w@x.com") (fun _ => 600) r1.2
      ⟨some "t", "access_token", none, none⟩
    r1.2 = st ∧ r2.2 = st ∧
    r1.1.authorized = true ∧ r1.1.hours_remaining = some (round2 ((9000 - 0) / 3600)) ∧
    r2.1.authorized = true ∧ r2.1.hours_remaining = some (round2 ((9000 - 600) / 3600)) ∧
    round2 ((9000 - 600) / 3600) ≤ round2 ((9000 - 0) / 3600) := by
  have h := authorize_active_repeated_monotone "s" (fun _ _ => Except.ok "c8w@x.com")
    (fun _ => 0) (fun _ => 600) ⟨[("c8w@x.com", 9000)], [("K", ("used", 1))], []⟩
    ⟨some "t", "access_token", none, none⟩ ⟨some "t", "access_token", none, none⟩
    "c8w@x.com" 9000 ⟨"t", rfl, rfl⟩ ⟨"t", rfl, rfl⟩ rfl
    (by decide) (by decide) (by decide)
  obtain ⟨h1, h2, h3, h4, h5⟩ := h
  obtain ⟨h31, h32⟩ := h3 (by decide)
  obtain ⟨h41, h42⟩ := h4 (by decide)
  exact ⟨h1, h2, h31, h32, h41, h42, h5⟩

/-- C5 counterexample: two clock sequences agreeing on the first reading but
not on the second yield different responses (different `hours_remaining`),
so the request's expiry computations do not all use one clock reading taken
once — the later `datetime.now()` calls are observable. -/
theorem authorize_second_clock_read_observable :
    (fun _ : Nat => (0:ℚ)) 0 = (fun n : Nat => if n = 0 then (0:ℚ) else 1800) 0 ∧
    (authorize "s" (fun _ _ => Except.ok "c5@x.com") (fun _ => 0)
        ⟨[("c5@x.com", 3600)], [], []⟩
        ⟨some "t", "access_token", none, none⟩).1.hours_remaining ≠
      (authorize "s" (fun _ _ => Except.ok "c5@x.com")
        (fun n => if n = 0 then 0 else 1800)
        ⟨[("c5@x.com", 3600)], [], []⟩
        ⟨some "t", "access_token", none, none⟩).1.hours_remaining := by
  constructor
  · rfl
  · have h1 := (authorize_live_core "s" (fun _ _ => Except.ok "c5@x.com") (fun _ => 0)
      ⟨[("c5@x.com", 3600)], [], []⟩ ⟨some "t", "access_token", none, none⟩ "c5@x.com" 3600
      ⟨"t", rfl, rfl⟩ rfl (by decide)).2 (by decide)
    have h2 := (authorize_live_core "s" (fun _ _ => Except.ok "c5@x.com")
      (fun n => if n = 0 then 0 else 1800)
      ⟨[("c5@x.com", 3600)], [], []⟩ ⟨some "t", "access_token", none, none⟩ "c5@x.com" 3600
      ⟨"t", rfl, rfl⟩ rfl (by decide)).2 (by decide)
    rw [h1.2.2.2.1, h2.2.2.2.1]
    intro h
    rw [Option.some_inj] at h
    norm_num [round2, round_eq] at h

/-- C5 amended: each expiry computation takes its own fresh clock reading, in
program order: the liveness test uses reading 0; on the live path the
remaining-hours value uses reading 1 and the token's expiry reading 2; on the
expired-session activation path the new session expiry uses reading 1 and the
token's expiry reading 2. -/
theorem authorize_clock_reads_per_computation (secret : String)
    (verify : String → String → Except String String) (clock : Nat → ℚ)
    (st : Store) (req : Request) (email : String) (exp : ℚ)
    (hv : verifiedEmail verify req email)
    (hs : dbLookup st.active_sessions email = some exp) :
    (clock 0 < exp → resolveOkB st req = true →
      (authorize secret verify clock st req).1.hours_remaining =
        some (round2 ((exp - clock 1) / 3600)) ∧
      (authorize secret verify clock st req).1.session_token =
        some (generate_session_token secret email (clock 2) ((exp - clock 1) / 3600))) ∧
    (exp ≤ clock 0 → ∀ k s d, req.key = some k →
      dbLookup st.licenses k = some (s, d) → s ≠ "used" →
      dbLookup (authorize secret verify clock st req).2.active_sessions email =
        some (clock 1 + d * 3600) ∧
      (authorize secret verify clock st req).1.session_token =
        some (generate_session_token secret email (clock 2) d)) := by
  constructor
  · intro hlv hok
    obtain ⟨_, hsucc⟩ := authorize_live_core secret verify clock st req email exp hv hs hlv
    obtain ⟨_, _, _, h4, _, h6⟩ := hsucc hok
    exact ⟨h4, h6⟩
  · intro hdead k s d hk hl hns
    have hnl : noLiveSession st email (clock 0) := by
      intro e he
      rw [hs] at he
      injection he with he2
      subst he2
      exact hdead
    obtain ⟨_, _, _, _, _, h6, _, h8⟩ :=
      authorize_no_live_activate secret verify clock st req email k s d hv hnl hk hl hns
    have hpr : priorReads st email = 1 := by simp [priorReads, hs]
    rw [hpr] at h6 h8
    exact ⟨h8, h6⟩

/-- C5 amended witness: with clock readings 0, 600, 1200 the live path uses
reading 600 for the remaining hours and reading 1200 for the token expiry. -/
theorem authorize_clock_reads_per_computation_witness :
    (authorize "s" (fun _ _ => Except.ok "c5w@x.com")
        (fun n => if n = 0 then 0 else if n = 1 then 600 else 1200)
        ⟨[("c5w@x.com", 3600)], [], []⟩
        ⟨some "t", "access_token", none, none⟩).1.hours_remaining =
      some (round2 ((3600 - 600) / 3600)) ∧
    (authorize "s" (fun _ _ => Except.ok "c5w@x.com")
        (fun n => if n = 0 then 0 else if n = 1 then 600 else 1200)
        ⟨[("c5w@x.com", 3600)], [], []⟩
        ⟨some "t", "access_token", none, none⟩).1.session_token =
      some (generate_session_token "s" "c5w@x.com" 1200 ((3600 - 600) / 3600)) := by
  exact (authorize_clock_reads_per_computation "s" (fun _ _ => Except.ok "c5w@x.com")
    (fun n => if n = 0 then 0 else if n = 1 then 600 else 1200)
    ⟨[("c5w@x.com", 3600)], [], []⟩ ⟨some "t", "access_token", none, none⟩
    "c5w@x.com" 3600 ⟨"t", rfl, rfl⟩ rfl).1 (by decide) (by decide)

/-- C1 counterexample: on the licence-activation path a request that names a
file absent from the registry is NOT answered 404: it succeeds (HTTP 200,
`authorized:true`) with the literal fallback identifier (line 159 of the
source), refuting the claim that both paths return 404 in this situation. -/
theorem activation_missing_named_file_not_404 :
    let out := authorize "s" (fun _ _ => Except.ok "c1@x.com") (fun _ => 0)
      ⟨[], [("K1", ("unused", 5))], [("a.pdf", "G1")]⟩
      ⟨some "t", "access_token", some "K1", some "missing.pdf"⟩
    dbLookup [("a.pdf", "G1")] "missing.pdf" = none ∧
    out.1.authorized = true ∧ out.1.status = 200 ∧
    out.1.gdrive_id = some "DEFAULT_FALLBACK_ID" := by decide

/-- C1 amended: on the active-session path a named resource missing from the
registry yields 404 with `authorized:false`, and an omitted name yields the
registry's first row or `"DEFAULT_FALLBACK_ID"` when the registry is empty;
on the licence-activation path an omitted name behaves the same, but a named
missing resource yields success carrying `"DEFAULT_FALLBACK_ID"` instead of
a 404. -/
theorem authorize_resource_resolution (secret : String)
    (verify : String → String → Except String String) (clock : Nat → ℚ)
    (st : Store) (req : Request) (email : String)
    (hv : verifiedEmail verify req email) :
    (∀ exp name, dbLookup st.active_sessions email = some exp → clock 0 < exp →
      req.requested_file = some name → dbLookup st.file_registry name = none →
      (authorize secret verify clock st req).1.status = 404 ∧
      (authorize secret verify clock st req).1.authorized = false) ∧
    (∀ exp, dbLookup st.active_sessions email = some exp → clock 0 < exp →
      req.requested_file = none →
      (authorize secret verify clock st req).1.gdrive_id =
        some ((st.file_registry.head?.map (fun p => p.2)).getD "DEFAULT_FALLBACK_ID")) ∧
    (∀ k s d name, dbLookup st.active_sessions email = none → req.key = some k →
      dbLookup st.licenses k = some (s, d) → s ≠ "used" →
      req.requested_file = some name → dbLookup st.file_registry name = none →
      (authorize secret verify clock st req).1.status = 200 ∧
      (authorize secret verify clock st req).1.authorized = true ∧
      (authorize secret verify clock st req).1.gdrive_id = some "DEFAULT_FALLBACK_ID") ∧
    (∀ k s d, dbLookup st.active_sessions email = none → req.key = some k →
      dbLookup st.licenses k = some (s, d) → s ≠ "used" →
      req.requested_file = none →
      (authorize secret verify clock st req).1.gdrive_id =
        some ((st.file_registry.head?.map (fun p => p.2)).getD "DEFAULT_FALLBACK_ID")) := by
  refine ⟨?_, ?_, ?_, ?_⟩
  · intro exp name hsess hlv hf hreg
    rw [authorize_session_live secret verify clock st req email exp hv hsess hlv]
    have hr : resolveActive st req = Except.error name := by
      unfold resolveActive
      simp [hf, hreg]
    simp [hr]
  · intro exp hsess hlv hf
    rw [authorize_session_live secret verify clock st req email exp hv hsess hlv]
    have hr : resolveActive st req =
        Except.ok ((st.file_registry.head?.map (fun p => p.2)).getD "DEFAULT_FALLBACK_ID") := by
      unfold resolveActive
      simp [hf]
    simp only [hr]
  · intro k s d name hsess hk hl hns hf hreg
    rw [authorize_session_none secret verify clock st req email hv hsess,
        checkLicense_activate secret clock st email req k s d hk hl hns]
    have hr : resolveActivation (applyActivation st email k (clock 0 + d * 3600)) req =
        "DEFAULT_FALLBACK_ID" := by
      unfold resolveActivation applyActivation
      simp [hf, hreg]
    simp [hr]
  · intro k s d hsess hk hl hns hf
    rw [authorize_session_none secret verify clock st req email hv hsess,
        checkLicense_activate secret clock st email req k s d hk hl hns]
    have hr : resolveActivation (applyActivation st email k (clock 0 + d * 3600)) req =
        (st.file_registry.head?.map (fun p => p.2)).getD "DEFAULT_FALLBACK_ID" := by
      unfold resolveActivation applyActivation
      simp [hf]
    simp only [hr]

/-- C1 amended witness: a concrete 404 on the active-session path and a
concrete fallback success on the activation path. -/
theorem authorize_resource_resolution_witness :
    (authorize "s" (fun _ _ => Except.ok "c1w@x.com") (fun _ => 0)
        ⟨[("c1w@x.com", 3600)], [], [("a.pdf", "G1")]⟩
        ⟨some "t", "access_token", none, some "zz.pdf"⟩).1.status = 404 ∧
    (authorize "s" (fun _ _ => Except.ok "c1w@x.com") (fun _ => 0)
        ⟨[], [("K9", ("unused", 2))], [("a.pdf", "G1")]⟩
        ⟨some "t", "access_token", some "K9", some "zz.pdf"⟩).1.gdrive_id =
      some "DEFAULT_FALLBACK_ID" := by
  constructor
  · exact ((authorize_resource_resolution "s" (fun _ _ => Except.ok "c1w@x.com")
      (fun _ => 0) ⟨[("c1w@x.com", 3600)], [], [("a.pdf", "G1")]⟩
      ⟨some "t", "access_token", none, some "zz.pdf"⟩ "c1w@x.com"
      ⟨"t", rfl, rfl⟩).1 3600 "zz.pdf" rfl (by decide) rfl (by decide)).1
  · exact ((authorize_resource_resolution "s" (fun _ _ => Except.ok "c1w@x.com")
      (fun _ => 0) ⟨[], [("K9", ("unused", 2))], [("a.pdf", "G1")]⟩
      ⟨some "t", "access_token", some "K9", some "zz.pdf"⟩ "c1w@x.com"
      ⟨"t", rfl, rfl⟩).2.2.1 "K9" "unused" 2 "zz.pdf" rfl rfl (by decide)
      (by decide) rfl (by decide)).2.2

/-- C3 (evidence of the defect): in the two-phase model of lines 143-154,
the interleaving in which both requests run their SELECT before either
commits lets BOTH concurrent requests presenting the same unused key
succeed, while the serial schedule yields one success and one rejection; the
code therefore does not force every concurrent loser to observe
`status = used`. -/
theorem license_race_interleaving_both_succeed :
    (((runRace "K1" (fun b => if b then "u2@x.com" else "u1@x.com") 0
        ⟨[], [("K1", ("unused", 5))], []⟩ [false, true, false, true]).2 false).resp =
          some true ∧
     ((runRace "K1" (fun b => if b then "u2@x.com" else "u1@x.com") 0
        ⟨[], [("K1", ("unused", 5))], []⟩ [false, true, false, true]).2 true).resp =
          some true) ∧
    (((runRace "K1" (fun b => if b then "u2@x.com" else "u1@x.com") 0
        ⟨[], [("K1", ("unused", 5))], []⟩ [false, false, true, true]).2 false).resp =
          some true ∧
     ((runRace "K1" (fun b => if b then "u2@x.com" else "u1@x.com") 0
        ⟨[], [("K1", ("unused", 5))], []⟩ [false, false, true, true]).2 true).resp =
          some false) := by
  decide

/-- C4: a licence whose status is `used` still has status `used` after any
`authorize` request (the only licence write sets `used`); and a request whose
key is invalid (no row) or already used is rejected 403, and an immediate
retry of the same request against the resulting store, at any clock, returns
the identical rejection and leaves the store unchanged. -/
theorem used_terminal_and_rejection_idempotent (secret : String)
    (verify : String → String → Except String String) (clock : Nat → ℚ)
    (st : Store) (req : Request) :
    (∀ k d, dbLookup st.licenses k = some ("used", d) →
      dbLookup (authorize secret verify clock st req).2.licenses k = some ("used", d)) ∧
    (∀ email k, verifiedEmail verify req email →
      noLiveSession st email (clock 0) →
      req.key = some k →
      (dbLookup st.licenses k = none ∨ ∃ d, dbLookup st.licenses k = some ("used", d)) →
      (authorize secret verify clock st req).1.status = 403 ∧
      (authorize secret verify clock st req).1.authorized = false ∧
      ∀ clock2 : Nat → ℚ,
        authorize secret verify clock2 (authorize secret verify clock st req).2 req =
          ((authorize secret verify clock st req).1,
           (authorize secret verify clock st req).2)) := by
  constructor
  · rcases authorize_licenses_shape secret verify clock st req with h | ⟨k2, h⟩
    · intro k d hk
      rw [h]
      exact hk
    · intro k d hk
      rw [h]
      exact dbLookup_setUsed_used st.licenses k2 k d hk
  · intro email k hv hnl hk hbad
    cases hsess : dbLookup st.active_sessions email with
    | none =>
      have e1 := authorize_session_none secret verify clock st req email hv hsess
      rcases hbad with hnone | ⟨d, hused⟩
      · have e2 := checkLicense_invalid secret clock st email req k hk hnone
        rw [e1, e2]
        refine ⟨rfl, rfl, ?_⟩
        intro clock2
        rw [authorize_session_none secret verify clock2 st req email hv hsess,
            checkLicense_invalid secret clock2 st email req k hk hnone]
      · have e2 := checkLicense_used secret clock st email req k d hk hused
        rw [e1, e2]
        refine ⟨rfl, rfl, ?_⟩
        intro clock2
        rw [authorize_session_none secret verify clock2 st req email hv hsess,
            checkLicense_used secret clock2 st email req k d hk hused]
    | some exp =>
      have hexp : exp ≤ clock 0 := hnl exp hsess
      have e1 := authorize_session_dead secret verify clock st req email exp hv hsess hexp
      have hdel : dbLookup (dbDeleteSession st.active_sessions email) email = none :=
        dbLookup_delete_self st.active_sessions email
      rcases hbad with hnone | ⟨d, hused⟩
      · have e2 := checkLicense_invalid secret (fun n => clock (n + 1))
          { st with active_sessions := dbDeleteSession st.active_sessions email }
          email req k hk hnone
        rw [e1, e2]
        refine ⟨rfl, rfl, ?_⟩
        intro clock2
        rw [authorize_session_none secret verify clock2
              { st with active_sessions := dbDeleteSession st.active_sessions email }
              req email hv hdel,
            checkLicense_invalid secret clock2
              { st with active_sessions := dbDeleteSession st.active_sessions email }
              email req k hk hnone]
      · have e2 := checkLicense_used secret (fun n => clock (n + 1))
          { st with active_sessions := dbDeleteSession st.active_sessions email }
          email req k d hk hused
        rw [e1, e2]
        refine ⟨rfl, rfl, ?_⟩
        intro clock2
        rw [authorize_session_none secret verify clock2
              { st with active_sessions := dbDeleteSession st.active_sessions email }
              req email hv hdel,
            checkLicense_used secret clock2
              { st with active_sessions := dbDeleteSession st.active_sessions email }
              email req k d hk hused]

/-- C4 witness: a concrete used key stays used, is rejected 403, and the
retry at a later clock returns the identical rejection on the same store. -/
theorem used_terminal_and_rejection_idempotent_witness :
    let st : Store := ⟨[], [("KU", ("used", 3))], []⟩
    let req : Request := ⟨some "t", "access_token", some "KU", none⟩
    let out := authorize "s" (fun _ _ => Except.ok "c4@x.com") (fun _ => 0) st req
    dbLookup out.2.licenses "KU" = some ("used", 3) ∧
    out.1.status = 403 ∧ out.1.authorized = false ∧
    authorize "s" (fun _ _ => Except.ok "c4@x.com") (fun _ => 50) out.2 req =
      (out.1, out.2) := by
  have h := used_terminal_and_rejection_idempotent "s"
    (fun _ _ => Except.ok "c4@x.com") (fun _ => 0)
    ⟨[], [("KU", ("used", 3))], []⟩ ⟨some "t", "access_token", some "KU", none⟩
  obtain ⟨ha, hb⟩ := h
  obtain ⟨h1, h2, h3⟩ := hb "c4@x.com" "KU" ⟨"t", rfl, rfl⟩
    (fun e he => by simp [dbLookup] at he) rfl (Or.inr ⟨3, by decide⟩)
  exact ⟨ha "KU" 3 (by decide), h1, h2, h3 (fun _ => 50)⟩

set_option maxRecDepth 100000

/-- C9: token generation is a deterministic function of identity, expiry and
secret: the token is the identity, the ISO-8601 rendering of the expiry, and
a 16-hex-character truncation of the HMAC-SHA256 of `identity:expiry`; calls
agreeing on identity, expiry and secret produce byte-identical tokens; and
changing the secret changes the signature (shown at concrete secrets). -/
theorem generate_session_token_deterministic_format :
    (∀ secret email now hours, generate_session_token secret email now hours =
      email ++ ":" ++ isoformat (now + hours * 3600) ++ ":" ++
        (hmacSha256Hex secret (email ++ ":" ++ isoformat (now + hours * 3600))).take 16) ∧
    (∀ secret email n1 h1 n2 h2, n1 + h1 * 3600 = n2 + h2 * 3600 →
      generate_session_token secret email n1 h1 =
        generate_session_token secret email n2 h2) ∧
    (∀ secret email now hours,
      ((hmacSha256Hex secret (email ++ ":" ++ isoformat (now + hours * 3600))).take 16).length
        = 16 ∧
      isHexString
        ((hmacSha256Hex secret (email ++ ":" ++ isoformat (now + hours * 3600))).take 16)
        = true) ∧
    hmacSha256Hex "secret-A" "u@example.com:1970-01-01T05:00:00" ≠
      hmacSha256Hex "secret-B" "u@example.com:1970-01-01T05:00:00" := by
  refine ⟨?_, ?_, ?_, ?_⟩
  · intro secret email now hours
    rfl
  · intro secret email n1 h1 n2 h2 h
    simp only [generate_session_token]
    rw [h]
  · intro secret email now hours
    exact ⟨take16_length _ (hmacSha256Hex_length _ _),
           isHexString_take _ _ (hmacSha256Hex_isHex _ _)⟩
  · decide

/-- C9 witness: two calls with different `now`/`hours` but the same expiry
instant produce byte-identical tokens. -/
theorem generate_session_token_deterministic_format_witness :
    (0:ℚ) + 2 * 3600 = 3600 + 1 * 3600 ∧
    generate_session_token "s9" "w9@x.com" 0 2 =
      generate_session_token "s9" "w9@x.com" 3600 1 := by
  refine ⟨by norm_num, ?_⟩
  exact generate_session_token_deterministic_format.2.1 "s9" "w9@x.com" 0 2 3600 1
    (by norm_num)
